import Mathlib

/-!
# dev-jobs: listing filters and avatar element

A shallow embedding of `projects/dev-jobs/pages/filters.js` and
`projects/dev-jobs/devjobs-avatar-element.js`.

JavaScript strings are sequences of UTF-16 code units; they are modelled as
lists of natural numbers (one number per code unit), so that every DOM string,
well-formed or not, has a representative. String literals of the source are
written with `js`.
-/

namespace DevJobs

/-! ## JavaScript strings -/

/-- A JavaScript string: its sequence of UTF-16 code units. -/
abbrev JSString := List Nat

/-- UTF-16 code units of one Unicode scalar value. -/
def utf16 (c : Char) : List Nat :=
  if c.toNat < 65536 then [c.toNat]
  else [55296 + (c.toNat - 65536) / 1024, 56320 + (c.toNat - 65536) % 1024]

/-- The JavaScript string denoted by a source literal. -/
def js (s : String) : JSString :=
  s.toList.flatMap utf16

/-- The method `String.prototype.includes(search)` with the default position 0: whether
`search` occurs in `s` at some index (the empty string occurs at index 0). -/
def includes : JSString → JSString → Bool
  | [], search => search.isPrefixOf []
  | c :: rest, search => search.isPrefixOf (c :: rest) || includes rest search

/-! ## Listing cards (`pages/filters.js`) -/

/-- What the handlers read and write of one `.job-listing-card` element:
its class list, `dataset.modalidad` (`none` when the element has no
`data-modalidad` attribute, where JavaScript gives `undefined`), and the
`textContent` of its `h3` descendants in tree order, which is what
`getElementsByTagName("h3")` enumerates. -/
structure Card where
  classList : List JSString
  modalidad : Option JSString
  h3 : List JSString
  deriving DecidableEq

/-- The method `DOMTokenList.contains(token)`. -/
def contains (cl : List JSString) (token : JSString) : Bool :=
  cl.any (fun t => decide (t = token))

/-- The method `DOMTokenList.toggle(token, force)` with `force` given: the token ends up
present exactly when `force` is true; a token already in the wanted state
leaves the list as it is, a new token is appended. -/
def toggle (cl : List JSString) (token : JSString) (force : Bool) : List JSString :=
  if contains cl token then
    if force then cl else cl.filter (fun t => decide (t ≠ token))
  else
    if force then cl ++ [token] else cl

/-- Whether the card carries the class `is-hidden`. -/
def Card.isHidden (c : Card) : Bool :=
  contains c.classList (js "is-hidden")

/-- Body of the `change` callback (filters.js lines 10-12) for one card.
`none` is the TypeError raised by `undefined.includes(...)`; it is raised
before the class list is touched. -/
def locationCallback (location : JSString) (jobListing : Card) : Option Card :=
  match jobListing.modalidad with
  | none => none
  | some dataModalidad =>
    let isShown := includes dataModalidad location
    some { jobListing with
      classList := toggle jobListing.classList (js "is-hidden") (!isShown) }

/-- Body of the `keyup` callback (filters.js lines 24-26) for one card.
`none` is the TypeError raised by reading `textContent` of `undefined` when
the card has no `h3`. -/
def searchCallback (searchQuery : JSString) (jobListing : Card) : Option Card :=
  match jobListing.h3 with
  | [] => none
  | jobTitle :: _ =>
    let isShown := includes jobTitle searchQuery
    some { jobListing with
      classList := toggle jobListing.classList (js "is-hidden") (!isShown) }

/-- Outcome of running a handler: the cards as they are left, and whether
the handler ended by an uncaught exception. -/
structure Outcome where
  cards : List Card
  raised : Bool
  deriving DecidableEq

/-- The method `NodeList.prototype.forEach` over the cards in document order. An
exception of the callback ends the iteration; the cards already visited keep
their update and the others are not visited. -/
def forEach (callback : Card → Option Card) : List Card → Outcome
  | [] => { cards := [], raised := false }
  | c :: rest =>
    match callback c with
    | none => { cards := c :: rest, raised := true }
    | some c' =>
      let r := forEach callback rest
      { cards := c' :: r.cards, raised := r.raised }

/-- The `change` handler of `#filter-location` (filters.js lines 3-14), run
on the cards selected by `querySelectorAll(".job-listing-card")` with
`e.target.value = location`. -/
def onLocationChange (location : JSString) (jobsListings : List Card) : Outcome :=
  forEach (locationCallback location) jobsListings

/-- The `keyup` handler of `#empleos-search-input` (filters.js lines 19-28),
run with `e.target.value = searchQuery`. -/
def onSearchKeyup (searchQuery : JSString) (jobsListings : List Card) : Outcome :=
  forEach (searchCallback searchQuery) jobsListings

/-! ## Avatar element (`devjobs-avatar-element.js`) -/

/-- State of one `devjobs-avatar` element: its content attributes in
order, and `this.shadowRoot.innerHTML` as last assigned. -/
structure AvatarElement where
  attributes : List (JSString × JSString)
  shadowHTML : JSString
  deriving DecidableEq

/-- The constructor (lines 2-6): attaches an open shadow root, which starts
with no content. -/
def AvatarElement.new (attributes : List (JSString × JSString)) : AvatarElement :=
  { attributes := attributes, shadowHTML := [] }

/-- The method `Element.getAttribute(name)`: the value of the first attribute
with that name, `none` (JavaScript `null`) when there is none. Names are
taken in lower case, as the element stores them. -/
def getAttribute (el : AvatarElement) (name : JSString) : Option JSString :=
  el.attributes.lookup name

/-- The method `Element.setAttribute(name, value)` for a valid name in lower
case: changes the first attribute of that name or appends a new one. The
class declares neither `observedAttributes` nor `attributeChangedCallback`,
so no code of the element runs. -/
def setAttribute (el : AvatarElement) (name value : JSString) : AvatarElement :=
  if el.attributes.any (fun a => decide (a.1 = name)) then
    { el with attributes :=
        el.attributes.map (fun a => if a.1 = name then (a.1, value) else a) }
  else
    { el with attributes := el.attributes ++ [(name, value)] }

/-- JavaScript `value || fallback` for `value` a string or `null`: `null`
and the empty string are falsy, every other string is truthy. -/
def orDefault (value : Option JSString) (fallback : JSString) : JSString :=
  match value with
  | none => fallback
  | some [] => fallback
  | some (c :: rest) => c :: rest

/-- The method `createAvatarUrl(service, username)` (lines 29-31). -/
def createAvatarUrl (service username : JSString) : JSString :=
  js "https://unavatar.io/" ++ service ++ js "/" ++ username

/-- Template text of lines 17-19, up to the interpolated URL. -/
def tplSrc : JSString :=
  js "\n            <img \n                src=\""

/-- Template text of lines 19-21, between the URL and the first size. -/
def tplWidth : JSString :=
  js "\" \n                alt=\"Avatar\" \n                width=\""

/-- Template text of lines 21-22, between the two sizes. -/
def tplHeight : JSString :=
  js "\"\n                height=\""

/-- Template text of lines 22-25, after the second size. -/
def tplTail : JSString :=
  js "\"\n                style=\"border-radius: 50%; border: 2px solid #000;\"\n            />\n        "

/-- The template literal of lines 17-25 for given values of `service`,
`username` and `size`. -/
def avatarMarkup (service username size : JSString) : JSString :=
  tplSrc ++ createAvatarUrl service username ++ tplWidth ++ size ++ tplHeight ++ size ++ tplTail

/-- The constant `service` as resolved on line 11. -/
def resolvedService (el : AvatarElement) : JSString :=
  orDefault (getAttribute el (js "service")) (js "github")

/-- The constant `username` as resolved on line 12. -/
def resolvedUsername (el : AvatarElement) : JSString :=
  orDefault (getAttribute el (js "username")) (js "juan-pablo-lopez")

/-- The constant `size` as resolved on line 13. -/
def resolvedSize (el : AvatarElement) : JSString :=
  orDefault (getAttribute el (js "size")) (js "32")

/-- The method `render()` (lines 8-26); `console.log` does not touch the
element. -/
def render (el : AvatarElement) : AvatarElement :=
  let service := resolvedService el
  let username := resolvedUsername el
  let size := resolvedSize el
  { el with shadowHTML := avatarMarkup service username size }

/-- The method `connectedCallback()` (lines 33-35), run when the element is
attached. -/
def connectedCallback (el : AvatarElement) : AvatarElement :=
  render el

/-- Operations on an element after its construction. -/
inductive Op where
  | attach
  | setAttribute (name value : JSString)
  deriving DecidableEq

/-- Effect of one operation. -/
def Op.apply (el : AvatarElement) : Op → AvatarElement
  | Op.attach => connectedCallback el
  | Op.setAttribute name value => DevJobs.setAttribute el name value

/-- Effect of a sequence of operations, first to last. -/
def runOps (el : AvatarElement) (ops : List Op) : AvatarElement :=
  ops.foldl Op.apply el

/-! ## Reading markup back: the tags of an HTML fragment

Assigning `innerHTML` hands the string to the HTML parser. To speak of the
tags and attributes a piece of markup contains, the tokenizer of the HTML
standard (section 13.2.5) is modelled for the states that tags and their
attributes go through. Character references, comments and declarations,
and the elements after whose start tag the tokenizer changes its content
model are outside the model: on meeting one of them it stops in the state
`unsupported` and gives no answer. Character tokens are not recorded. -/

/-- A start or end tag token. -/
structure Tag where
  isEnd : Bool
  name : JSString
  attrs : List (JSString × JSString)
  selfClosing : Bool
  deriving DecidableEq

/-- Tokenizer states. -/
inductive TState where
  | data
  | tagOpen
  | endTagOpen
  | tagName
  | beforeAttrName
  | attrName
  | afterAttrName
  | beforeAttrValue
  | attrValueDQ
  | attrValueSQ
  | attrValueUQ
  | afterAttrValueQ
  | selfClosingStartTag
  | unsupported
  deriving DecidableEq

/-- Tokenizer configuration: state, the tag token under construction with
its completed attributes, the attribute being read, and the tags emitted. -/
structure Tokenizer where
  state : TState
  tag : Tag
  attr : Option (JSString × JSString)
  emitted : List Tag
  deriving DecidableEq

/-- Tab, line feed, form feed and space. -/
def isWhitespace (c : Nat) : Bool :=
  c = 9 || c = 10 || c = 12 || c = 32

/-- ASCII upper alpha. -/
def isUpper (c : Nat) : Bool :=
  65 ≤ c && c ≤ 90

/-- ASCII alpha. -/
def isAlpha (c : Nat) : Bool :=
  isUpper c || (97 ≤ c && c ≤ 122)

/-- Code unit appended to a tag or attribute name: upper case letters are
lowered and NUL becomes U+FFFD. -/
def nameChar (c : Nat) : Nat :=
  if c = 0 then 65533 else if isUpper c then c + 32 else c

/-- Code unit appended to an attribute value: NUL becomes U+FFFD. -/
def valueChar (c : Nat) : Nat :=
  if c = 0 then 65533 else c

/-- Input stream preprocessing: CR LF and a lone CR become LF. `afterCR`
tells that the previous code unit was a CR, whose LF is already written. -/
def normalizeFrom (afterCR : Bool) : JSString → JSString
  | [] => []
  | c :: rest =>
    if c = 13 then 10 :: normalizeFrom true rest
    else if c = 10 && afterCR then normalizeFrom false rest
    else c :: normalizeFrom false rest

/-- Input stream preprocessing of a whole input. -/
def normalizeNewlines (input : JSString) : JSString :=
  normalizeFrom false input

/-- Elements after whose start tag the tokenizer leaves the data state. -/
def rawTextNames : List JSString :=
  [js "script", js "style", js "title", js "textarea", js "xmp", js "iframe",
   js "noembed", js "noframes", js "noscript", js "plaintext"]

/-- The tag token with the attribute being read added to it. An attribute
whose name is already on the token is dropped, value included. -/
def Tokenizer.finishAttr (t : Tokenizer) : Tag :=
  match t.attr with
  | none => t.tag
  | some (n, v) =>
    if t.tag.attrs.any (fun a => decide (a.1 = n)) then t.tag
    else { t.tag with attrs := t.tag.attrs ++ [(n, v)] }

/-- Emit the current tag token and return to the data state. -/
def Tokenizer.emit (t : Tokenizer) : Tokenizer :=
  let tag := t.finishAttr
  { state := if !tag.isEnd && rawTextNames.contains tag.name then TState.unsupported
             else TState.data
    tag := tag
    attr := none
    emitted := t.emitted ++ [tag] }

/-- Create a new tag token whose name starts with `c`; tag name state. -/
def Tokenizer.newTag (t : Tokenizer) (isEnd : Bool) (c : Nat) : Tokenizer :=
  { t with
    state := TState.tagName
    tag := { isEnd := isEnd, name := [nameChar c], attrs := [], selfClosing := false }
    attr := none }

/-- Start a new attribute with the given name and an empty value; attribute
name state. -/
def Tokenizer.startAttr (t : Tokenizer) (name : JSString) : Tokenizer :=
  { t with state := TState.attrName, tag := t.finishAttr, attr := some (name, []) }

/-- Append to the name of the attribute being read. -/
def Tokenizer.appendName (t : Tokenizer) (c : Nat) : Tokenizer :=
  match t.attr with
  | none => t
  | some (n, v) => { t with attr := some (n ++ [nameChar c], v) }

/-- Append to the value of the attribute being read. -/
def Tokenizer.appendValue (t : Tokenizer) (c : Nat) : Tokenizer :=
  match t.attr with
  | none => t
  | some (n, v) => { t with attr := some (n, v ++ [valueChar c]) }

/-- Data state. -/
def stepData (t : Tokenizer) (c : Nat) : Tokenizer :=
  if c = 38 then { t with state := TState.unsupported }
  else if c = 60 then { t with state := TState.tagOpen }
  else { t with state := TState.data }

/-- After attribute name state. -/
def stepAfterAttrName (t : Tokenizer) (c : Nat) : Tokenizer :=
  if isWhitespace c then { t with state := TState.afterAttrName }
  else if c = 47 then { t with state := TState.selfClosingStartTag }
  else if c = 61 then { t with state := TState.beforeAttrValue }
  else if c = 62 then t.emit
  else (t.startAttr []).appendName c

/-- Before attribute name state. -/
def stepBeforeAttrName (t : Tokenizer) (c : Nat) : Tokenizer :=
  if isWhitespace c then { t with state := TState.beforeAttrName }
  else if c = 47 || c = 62 then stepAfterAttrName t c
  else if c = 61 then t.startAttr [61]
  else (t.startAttr []).appendName c

/-- Attribute value (unquoted) state. -/
def stepAttrValueUQ (t : Tokenizer) (c : Nat) : Tokenizer :=
  if isWhitespace c then { t with state := TState.beforeAttrName }
  else if c = 38 then { t with state := TState.unsupported }
  else if c = 62 then t.emit
  else { t.appendValue c with state := TState.attrValueUQ }

/-- One step of the tokenizer on the code unit `c`. -/
def step (t : Tokenizer) (c : Nat) : Tokenizer :=
  match t.state with
  | TState.data => stepData t c
  | TState.tagOpen =>
    if c = 33 || c = 63 then { t with state := TState.unsupported }
    else if c = 47 then { t with state := TState.endTagOpen }
    else if isAlpha c then t.newTag false c
    else stepData t c
  | TState.endTagOpen =>
    if isAlpha c then t.newTag true c
    else if c = 62 then { t with state := TState.data }
    else { t with state := TState.unsupported }
  | TState.tagName =>
    if isWhitespace c then { t with state := TState.beforeAttrName }
    else if c = 47 then { t with state := TState.selfClosingStartTag }
    else if c = 62 then t.emit
    else { t with tag := { t.tag with name := t.tag.name ++ [nameChar c] } }
  | TState.beforeAttrName => stepBeforeAttrName t c
  | TState.attrName =>
    if isWhitespace c || c = 47 || c = 62 then stepAfterAttrName t c
    else if c = 61 then { t with state := TState.beforeAttrValue }
    else t.appendName c
  | TState.afterAttrName => stepAfterAttrName t c
  | TState.beforeAttrValue =>
    if isWhitespace c then t
    else if c = 34 then { t with state := TState.attrValueDQ }
    else if c = 39 then { t with state := TState.attrValueSQ }
    else if c = 62 then t.emit
    else stepAttrValueUQ t c
  | TState.attrValueDQ =>
    if c = 34 then { t with state := TState.afterAttrValueQ }
    else if c = 38 then { t with state := TState.unsupported }
    else t.appendValue c
  | TState.attrValueSQ =>
    if c = 39 then { t with state := TState.afterAttrValueQ }
    else if c = 38 then { t with state := TState.unsupported }
    else t.appendValue c
  | TState.attrValueUQ => stepAttrValueUQ t c
  | TState.afterAttrValueQ =>
    if isWhitespace c then { t with state := TState.beforeAttrName }
    else if c = 47 then { t with state := TState.selfClosingStartTag }
    else if c = 62 then t.emit
    else stepBeforeAttrName t c
  | TState.selfClosingStartTag =>
    if c = 62 then
      Tokenizer.emit { t with tag := { t.tag with selfClosing := true } }
    else stepBeforeAttrName t c
  | TState.unsupported => t

/-- The tokenizer before any input, in the data state. -/
def Tokenizer.init : Tokenizer :=
  { state := TState.data
    tag := { isEnd := false, name := [], attrs := [], selfClosing := false }
    attr := none
    emitted := [] }

/-- The tag tokens of a piece of markup, in order; `none` when the markup
leaves the modelled part of the tokenizer. A tag still open at the end of
the input is not emitted. -/
def tags (markup : JSString) : Option (List Tag) :=
  let t := (normalizeNewlines markup).foldl step Tokenizer.init
  if t.state = TState.unsupported then none else some t.emitted

/-- Value of the attribute `name` on a tag token. -/
def Tag.attr (tag : Tag) (name : JSString) : Option JSString :=
  tag.attrs.lookup name

/-! ## Notions used to state the properties -/

/-- The string `t` occurs in `s` as a substring. -/
def IsSubstring (t s : JSString) : Prop :=
  ∃ pre post, s = pre ++ t ++ post

/-- The card carries a `data-modalidad` attribute. -/
def Card.hasModalidad (c : Card) : Bool :=
  c.modalidad.isSome

/-- The card has an `h3` descendant. -/
def Card.hasTitle (c : Card) : Bool :=
  !c.h3.isEmpty

/-- The card with `is-hidden` toggled so that it is present exactly when
`shown` is false: the update both callbacks make. -/
def Card.showIf (c : Card) (shown : Bool) : Card :=
  { c with classList := toggle c.classList (js "is-hidden") (!shown) }

/-- The URL the specification text gives for the image,
`https://{service}/{username}`. -/
def specAvatarUrl (service username : JSString) : JSString :=
  js "https://" ++ service ++ js "/" ++ username

/-- No NUL, CR, double quote or ampersand: the code units that the HTML
parser does not take over unchanged into a double-quoted attribute value. -/
def plain (s : JSString) : Bool :=
  s.all (fun c => c != 0 && c != 13 && c != 34 && c != 38)

/-- No CR. -/
def noCR (s : JSString) : Bool :=
  s.all (fun c => c != 13)

/-- The `img` start tag that the template describes for given values. -/
def avatarTag (service username size : JSString) : Tag :=
  { isEnd := false
    name := js "img"
    attrs := [(js "src", createAvatarUrl service username), (js "alt", js "Avatar"),
      (js "width", size), (js "height", size),
      (js "style", js "border-radius: 50%; border: 2px solid #000;")]
    selfClosing := true }

/-- For each tag of the markup, in order, its name and its value of the
attribute `name`; `none` when the markup is outside the modelled fragment. -/
def tagAttrs (markup name : JSString) : Option (List (JSString × Option JSString)) :=
  (tags markup).map (List.map (fun t => (t.name, t.attr name)))

/-! ## Sample data -/

/-- Three well-formed cards: a visible remote one, a hidden one in
Barcelona, and one with an empty `data-modalidad`. -/
def sampleCards : List Card :=
  [{ classList := [js "job-listing-card"], modalidad := some (js "remoto"),
     h3 := [js "Frontend Developer"] },
   { classList := [js "job-listing-card", js "is-hidden"], modalidad := some (js "barcelona"),
     h3 := [js "Backend Developer", js "Other"] },
   { classList := [js "is-hidden", js "job-listing-card"], modalidad := some (js ""),
     h3 := [js " devops "] }]

/-- A `.job-listing-card` with no `data-modalidad` attribute and no `h3`. -/
def bareCard : Card :=
  { classList := [js "job-listing-card", js "is-hidden"], modalidad := none, h3 := [] }

/-- The sample cards with the bare card in third place. -/
def mixedCards : List Card :=
  sampleCards.take 2 ++ bareCard :: sampleCards.drop 2

/-- An element with a service, an empty username and the size `0`. -/
def sampleAvatar : AvatarElement :=
  AvatarElement.new [(js "service", js "gitlab"), (js "username", js ""), (js "size", js "0")]

/-- An element with a service and a username, as a page would write it. -/
def midudevAvatar : AvatarElement :=
  AvatarElement.new [(js "service", js "github"), (js "username", js "midudev")]

/-- An element whose username holds a double quote. -/
def quotedUsernameAvatar : AvatarElement :=
  AvatarElement.new [(js "username", js "a\"b")]

/-- An element whose size closes the attribute and the tag and opens a new
tag; the size is written twice, so this happens twice. -/
def secondTagSizeAvatar : AvatarElement :=
  AvatarElement.new [(js "size", js "1\"><img src=\"z")]

/-- An element whose size closes the attribute and writes a height. -/
def injectedHeightAvatar : AvatarElement :=
  AvatarElement.new [(js "size", js "1\" height=\"2")]

/-- An element whose username closes the attribute and writes a width. -/
def injectedWidthAvatar : AvatarElement :=
  AvatarElement.new [(js "username", js "x\" width=\"99")]

/-- An element whose service holds a double quote. -/
def quotedServiceAvatar : AvatarElement :=
  AvatarElement.new [(js "service", js "a\"b")]

/-- An element whose username is `a`, a carriage return and `b`, as
`setAttribute` can store it. -/
def crUsernameAvatar : AvatarElement :=
  AvatarElement.new [(js "username", [97, 13, 98])]

/-- An element whose username is `a` followed by NUL, as `setAttribute` can
store it. -/
def nulUsernameAvatar : AvatarElement :=
  AvatarElement.new [(js "username", [97, 0])]

/-! ## Lemmas on strings and class lists -/

theorem includes_iff (s t : JSString) : includes s t = true ↔ IsSubstring t s := by
  unfold IsSubstring
  induction s with
  | nil =>
    simp only [includes, List.isPrefixOf_iff_prefix]
    constructor
    · intro h
      have ht : t = [] := List.prefix_nil.mp h
      exact ⟨[], [], by simp [ht]⟩
    · rintro ⟨pre, post, h⟩
      have h' := congrArg List.length h
      simp at h'
      have : t = [] := List.length_eq_zero.mp (by omega)
      simp [this]
  | cons c rest ih =>
    simp only [includes, Bool.or_eq_true, List.isPrefixOf_iff_prefix, ih]
    constructor
    · rintro (⟨post, h⟩ | ⟨pre, post, h⟩)
      · exact ⟨[], post, by simp [h]⟩
      · exact ⟨c :: pre, post, by simp [h]⟩
    · rintro ⟨pre, post, h⟩
      cases pre with
      | nil => left; exact ⟨post, by simpa using h.symm⟩
      | cons a pre =>
        right
        simp at h
        exact ⟨pre, post, by simpa using h.2⟩

theorem includes_empty (s : JSString) : includes s [] = true :=
  (includes_iff s []).mpr ⟨[], s, by simp⟩

theorem contains_iff (cl : List JSString) (t : JSString) :
    contains cl t = true ↔ t ∈ cl := by
  simp [contains]

theorem contains_toggle (cl : List JSString) (t : JSString) (force : Bool) :
    contains (toggle cl t force) t = force := by
  unfold toggle
  by_cases hc : contains cl t = true
  · cases force
    · simp only [hc, if_true, Bool.false_eq_true, if_false]
      rw [← Bool.not_eq_true, contains_iff]
      simp
    · simp [hc]
  · cases force
    · simp [hc]
    · simp only [hc, if_true, if_false]
      rw [contains_iff]
      simp

theorem toggle_toggle (cl : List JSString) (t : JSString) (force : Bool) :
    toggle (toggle cl t force) t force = toggle cl t force := by
  have h := contains_toggle cl t force
  generalize toggle cl t force = cl' at h
  unfold toggle
  cases force <;> simp [h]

theorem isHidden_showIf (c : Card) (shown : Bool) : (c.showIf shown).isHidden = !shown := by
  simp [Card.showIf, Card.isHidden, contains_toggle]

theorem showIf_showIf (c : Card) (shown : Bool) :
    (c.showIf shown).showIf shown = c.showIf shown := by
  simp [Card.showIf, toggle_toggle]

/-! ## Lemmas on the iteration -/

theorem forEach_eq_map (f : Card → Option Card) (g : Card → Card) (cards : List Card)
    (h : ∀ c ∈ cards, f c = some (g c)) :
    forEach f cards = { cards := cards.map g, raised := false } := by
  induction cards with
  | nil => rfl
  | cons c rest ih =>
    have hc := h c (List.mem_cons_self _ _)
    have hr := ih (fun x hx => h x (List.mem_cons_of_mem _ hx))
    simp [forEach, hc, hr]

theorem forEach_raised_iff (f : Card → Option Card) (cards : List Card) :
    (forEach f cards).raised = true ↔ ∃ c ∈ cards, f c = none := by
  induction cards with
  | nil => simp [forEach]
  | cons c rest ih =>
    cases hc : f c with
    | none => simp [forEach, hc]
    | some c' => simp [forEach, hc, ih]

theorem forEach_stops (f : Card → Option Card) (g : Card → Card) (pre : List Card)
    (bad : Card) (post : List Card)
    (hpre : ∀ c ∈ pre, f c = some (g c)) (hbad : f bad = none) :
    forEach f (pre ++ bad :: post) = { cards := pre.map g ++ bad :: post, raised := true } := by
  induction pre with
  | nil => simp [forEach, hbad]
  | cons c rest ih =>
    have hc := hpre c (List.mem_cons_self _ _)
    have hr := ih (fun x hx => hpre x (List.mem_cons_of_mem _ hx))
    simp [forEach, hc, hr]

theorem locationCallback_some (v : JSString) (c : Card) (m : JSString)
    (h : c.modalidad = some m) :
    locationCallback v c = some (c.showIf (includes m v)) := by
  simp [locationCallback, h, Card.showIf]

theorem searchCallback_some (q : JSString) (c : Card) (title : JSString) (more : List JSString)
    (h : c.h3 = title :: more) :
    searchCallback q c = some (c.showIf (includes title q)) := by
  simp [searchCallback, h, Card.showIf]

theorem locationCallback_eq (v : JSString) (c : Card) (h : c.hasModalidad = true) :
    locationCallback v c = some (c.showIf (includes (c.modalidad.getD []) v)) := by
  cases hm : c.modalidad with
  | none => simp [Card.hasModalidad, hm] at h
  | some m => simp [locationCallback_some v c m hm]

theorem searchCallback_eq (q : JSString) (c : Card) (h : c.hasTitle = true) :
    searchCallback q c = some (c.showIf (includes (c.h3.headD []) q)) := by
  cases hm : c.h3 with
  | nil => simp [Card.hasTitle, hm] at h
  | cons t more => simp [searchCallback_some q c t more hm]

theorem locationCallback_none_iff (v : JSString) (c : Card) :
    locationCallback v c = none ↔ c.modalidad = none := by
  cases hm : c.modalidad with
  | none => simp [locationCallback, hm]
  | some m => simp [locationCallback, hm]

theorem searchCallback_none_iff (q : JSString) (c : Card) :
    searchCallback q c = none ↔ c.h3 = [] := by
  cases hm : c.h3 with
  | nil => simp [searchCallback, hm]
  | cons t more => simp [searchCallback, hm]

/-! ## The listing filters -/

/-- C1. Location filter: when every card carries a `data-modalidad` string,
the `change` handler ends without an exception and leaves, card by card in
document order, the same card with the class `is-hidden` present if and only
if the selected value is not a substring of its `data-modalidad`, whatever
its class list was before. -/
theorem location_filter_hidden_iff (v : JSString) (cards : List Card)
    (h : ∀ c ∈ cards, c.modalidad ≠ none) :
    (onLocationChange v cards).raised = false ∧
    List.Forall₂
      (fun c c' => c'.modalidad = c.modalidad ∧ c'.h3 = c.h3 ∧
        ∃ m, c.modalidad = some m ∧ (c'.isHidden = true ↔ ¬ IsSubstring v m))
      cards (onLocationChange v cards).cards := by
  have hall : ∀ c ∈ cards, locationCallback v c =
      some (c.showIf (includes (c.modalidad.getD []) v)) := by
    intro c hc
    apply locationCallback_eq
    have := h c hc
    cases hm : c.modalidad with
    | none => exact absurd hm this
    | some m => simp [Card.hasModalidad, hm]
  unfold onLocationChange
  rw [forEach_eq_map _ _ cards hall]
  refine ⟨rfl, ?_⟩
  rw [List.forall₂_map_right_iff, List.forall₂_same]
  intro c hc
  refine ⟨rfl, rfl, ?_⟩
  cases hm : c.modalidad with
  | none => exact absurd hm (h c hc)
  | some m =>
    refine ⟨m, rfl, ?_⟩
    rw [isHidden_showIf, ← includes_iff]
    simp

/-- Witness of C1 on the sample cards with the value `remoto`: the first
card is shown, the two others are hidden. -/
theorem location_filter_hidden_iff_witness :
    (∀ c ∈ sampleCards, c.modalidad ≠ none) ∧
    (onLocationChange (js "remoto") sampleCards).raised = false ∧
    List.Forall₂
      (fun c c' => c'.modalidad = c.modalidad ∧ c'.h3 = c.h3 ∧
        ∃ m, c.modalidad = some m ∧ (c'.isHidden = true ↔ ¬ IsSubstring (js "remoto") m))
      sampleCards (onLocationChange (js "remoto") sampleCards).cards ∧
    (onLocationChange (js "remoto") sampleCards).cards.map Card.isHidden = [false, true, true] :=
  ⟨by decide, (location_filter_hidden_iff (js "remoto") sampleCards (by decide)).1,
   (location_filter_hidden_iff (js "remoto") sampleCards (by decide)).2, by decide⟩

/-- C2. Search filter: when every card contains an `h3`, the `keyup`
handler ends without an exception and leaves each card with the class
`is-hidden` present if and only if the query is not a substring of the text
content of its first `h3`. Query and title are compared code unit by code
unit, as they are: nothing is folded or trimmed. -/
theorem search_filter_hidden_iff (q : JSString) (cards : List Card)
    (h : ∀ c ∈ cards, c.h3 ≠ []) :
    (onSearchKeyup q cards).raised = false ∧
    List.Forall₂
      (fun c c' => c'.modalidad = c.modalidad ∧ c'.h3 = c.h3 ∧
        ∃ title more, c.h3 = title :: more ∧ (c'.isHidden = true ↔ ¬ IsSubstring q title))
      cards (onSearchKeyup q cards).cards := by
  have hall : ∀ c ∈ cards, searchCallback q c =
      some (c.showIf (includes (c.h3.headD []) q)) := by
    intro c hc
    apply searchCallback_eq
    have := h c hc
    cases hm : c.h3 with
    | nil => exact absurd hm this
    | cons t more => simp [Card.hasTitle, hm]
  unfold onSearchKeyup
  rw [forEach_eq_map _ _ cards hall]
  refine ⟨rfl, ?_⟩
  rw [List.forall₂_map_right_iff, List.forall₂_same]
  intro c hc
  refine ⟨rfl, rfl, ?_⟩
  cases hm : c.h3 with
  | nil => exact absurd hm (h c hc)
  | cons t more =>
    refine ⟨t, more, rfl, ?_⟩
    rw [isHidden_showIf, ← includes_iff]
    simp

/-- Witness of C2 on the sample cards with the query `developer`, which
differs from the titles in case and hides every card, where `Developer` shows
two; and the query `devops` followed by two spaces hides the card that
`devops` shows. -/
theorem search_filter_hidden_iff_witness :
    (∀ c ∈ sampleCards, c.h3 ≠ []) ∧
    (onSearchKeyup (js "developer") sampleCards).raised = false ∧
    List.Forall₂
      (fun c c' => c'.modalidad = c.modalidad ∧ c'.h3 = c.h3 ∧
        ∃ title more, c.h3 = title :: more ∧
          (c'.isHidden = true ↔ ¬ IsSubstring (js "developer") title))
      sampleCards (onSearchKeyup (js "developer") sampleCards).cards ∧
    (onSearchKeyup (js "developer") sampleCards).cards.map Card.isHidden = [true, true, true] ∧
    (onSearchKeyup (js "Developer") sampleCards).cards.map Card.isHidden = [false, false, true] ∧
    (onSearchKeyup (js "devops") sampleCards).cards.map Card.isHidden = [true, true, false] ∧
    (onSearchKeyup (js "devops  ") sampleCards).cards.map Card.isHidden = [true, true, true] :=
  ⟨by decide, (search_filter_hidden_iff (js "developer") sampleCards (by decide)).1,
   (search_filter_hidden_iff (js "developer") sampleCards (by decide)).2,
   by decide, by decide, by decide, by decide⟩

/-- C3. Empty selection shows all: when every card carries a
`data-modalidad` string, the empty one included, the `change` handler run with
the empty value ends without an exception, keeps the number of cards and
leaves no card with the class `is-hidden`. -/
theorem empty_selection_shows_all (cards : List Card)
    (h : ∀ c ∈ cards, c.modalidad ≠ none) :
    (onLocationChange [] cards).raised = false ∧
    (onLocationChange [] cards).cards.length = cards.length ∧
    ∀ c' ∈ (onLocationChange [] cards).cards, c'.isHidden = false := by
  have hall : ∀ c ∈ cards, locationCallback [] c = some (c.showIf true) := by
    intro c hc
    cases hm : c.modalidad with
    | none => exact absurd hm (h c hc)
    | some m => rw [locationCallback_some [] c m hm, includes_empty]
  unfold onLocationChange
  rw [forEach_eq_map _ _ cards hall]
  refine ⟨rfl, by simp, ?_⟩
  intro c' hc'
  obtain ⟨c, _, rfl⟩ := List.mem_map.mp hc'
  simp [isHidden_showIf]

/-- Witness of C3 on the sample cards, two of which start hidden. -/
theorem empty_selection_shows_all_witness :
    (∀ c ∈ sampleCards, c.modalidad ≠ none) ∧
    (onLocationChange [] sampleCards).raised = false ∧
    (onLocationChange [] sampleCards).cards.length = sampleCards.length ∧
    ∀ c' ∈ (onLocationChange [] sampleCards).cards, c'.isHidden = false :=
  ⟨by decide, empty_selection_shows_all sampleCards (by decide)⟩

theorem onLocationChange_eq (v : JSString) (cards : List Card)
    (h : ∀ c ∈ cards, c.hasModalidad = true) :
    onLocationChange v cards =
      { cards := cards.map (fun c => c.showIf (includes (c.modalidad.getD []) v))
        raised := false } :=
  forEach_eq_map _ _ cards (fun c hc => locationCallback_eq v c (h c hc))

theorem onSearchKeyup_eq (q : JSString) (cards : List Card)
    (h : ∀ c ∈ cards, c.hasTitle = true) :
    onSearchKeyup q cards =
      { cards := cards.map (fun c => c.showIf (includes (c.h3.headD []) q))
        raised := false } :=
  forEach_eq_map _ _ cards (fun c hc => searchCallback_eq q c (h c hc))

theorem hasModalidad_of_ne (c : Card) (h : c.modalidad ≠ none) : c.hasModalidad = true := by
  cases hm : c.modalidad with
  | none => exact absurd hm h
  | some m => simp [Card.hasModalidad, hm]

theorem hasTitle_of_ne (c : Card) (h : c.h3 ≠ []) : c.hasTitle = true := by
  cases hm : c.h3 with
  | nil => exact absurd hm h
  | cons t more => simp [Card.hasTitle, hm]

/-- C8. The filters do not combine, the last one wins: on cards that all
carry a `data-modalidad` string and an `h3`, running the location handler and
then the search handler raises nothing and leaves each card with `is-hidden`
present if and only if the query is not a substring of its first `h3`,
whatever the location value was, which is the state the search handler alone
gives; symmetrically for search followed by location; so a card hidden by the
first handler is shown by the second when it matches the second; and running
either handler a second time with the same value changes nothing. -/
theorem last_filter_wins (v q : JSString) (cards : List Card)
    (h : ∀ c ∈ cards, c.modalidad ≠ none ∧ c.h3 ≠ []) :
    (onSearchKeyup q (onLocationChange v cards).cards).raised = false ∧
    List.Forall₂
      (fun c c' => ∃ title more, c.h3 = title :: more ∧
        (c'.isHidden = true ↔ ¬ IsSubstring q title))
      cards (onSearchKeyup q (onLocationChange v cards).cards).cards ∧
    (onSearchKeyup q (onLocationChange v cards).cards).cards.map Card.isHidden =
      (onSearchKeyup q cards).cards.map Card.isHidden ∧
    (onLocationChange v (onSearchKeyup q cards).cards).raised = false ∧
    List.Forall₂
      (fun c c' => ∃ m, c.modalidad = some m ∧
        (c'.isHidden = true ↔ ¬ IsSubstring v m))
      cards (onLocationChange v (onSearchKeyup q cards).cards).cards ∧
    (onLocationChange v (onSearchKeyup q cards).cards).cards.map Card.isHidden =
      (onLocationChange v cards).cards.map Card.isHidden ∧
    onLocationChange v (onLocationChange v cards).cards = onLocationChange v cards ∧
    onSearchKeyup q (onSearchKeyup q cards).cards = onSearchKeyup q cards := by
  have hm : ∀ c ∈ cards, c.hasModalidad = true :=
    fun c hc => hasModalidad_of_ne c (h c hc).1
  have ht : ∀ c ∈ cards, c.hasTitle = true :=
    fun c hc => hasTitle_of_ne c (h c hc).2
  have hL := onLocationChange_eq v cards hm
  have hS := onSearchKeyup_eq q cards ht
  have hmL : ∀ c ∈ (onLocationChange v cards).cards, c.hasModalidad = true := by
    rw [hL]
    intro c hc
    obtain ⟨c0, hc0, rfl⟩ := List.mem_map.mp hc
    exact hm c0 hc0
  have htL : ∀ c ∈ (onLocationChange v cards).cards, c.hasTitle = true := by
    rw [hL]
    intro c hc
    obtain ⟨c0, hc0, rfl⟩ := List.mem_map.mp hc
    exact ht c0 hc0
  have hmS : ∀ c ∈ (onSearchKeyup q cards).cards, c.hasModalidad = true := by
    rw [hS]
    intro c hc
    obtain ⟨c0, hc0, rfl⟩ := List.mem_map.mp hc
    exact hm c0 hc0
  have htS : ∀ c ∈ (onSearchKeyup q cards).cards, c.hasTitle = true := by
    rw [hS]
    intro c hc
    obtain ⟨c0, hc0, rfl⟩ := List.mem_map.mp hc
    exact ht c0 hc0
  have hSL := onSearchKeyup_eq q _ htL
  have hLS := onLocationChange_eq v _ hmS
  have hLL := onLocationChange_eq v _ hmL
  have hSS := onSearchKeyup_eq q _ htS
  refine ⟨by rw [hSL], ?_, ?_, by rw [hLS], ?_, ?_, ?_, ?_⟩
  · rw [hSL, hL]
    simp only [List.map_map]
    rw [List.forall₂_map_right_iff, List.forall₂_same]
    intro c hc
    cases hh : c.h3 with
    | nil => exact absurd hh (h c hc).2
    | cons t more =>
      refine ⟨t, more, rfl, ?_⟩
      simp only [Function.comp, isHidden_showIf]
      have e : (c.showIf (includes (c.modalidad.getD []) v)).h3 = t :: more := hh
      rw [e, ← includes_iff]
      simp
  · rw [hSL, hL, hS]
    simp only [List.map_map]
    apply List.map_congr_left
    intro c _
    simp only [Function.comp, isHidden_showIf]
    rfl
  · rw [hLS, hS]
    simp only [List.map_map]
    rw [List.forall₂_map_right_iff, List.forall₂_same]
    intro c hc
    cases hh : c.modalidad with
    | none => exact absurd hh (h c hc).1
    | some m =>
      refine ⟨m, rfl, ?_⟩
      simp only [Function.comp, isHidden_showIf]
      have e : (c.showIf (includes (c.h3.headD []) q)).modalidad = some m := hh
      rw [e, ← includes_iff]
      simp
  · rw [hLS, hS, hL]
    simp only [List.map_map]
    apply List.map_congr_left
    intro c _
    simp only [Function.comp, isHidden_showIf]
    rfl
  · rw [hLL, hL]
    simp only [List.map_map, Outcome.mk.injEq, and_true]
    apply List.map_congr_left
    intro c _
    simp only [Function.comp]
    exact showIf_showIf c _
  · rw [hSS, hS]
    simp only [List.map_map, Outcome.mk.injEq, and_true]
    apply List.map_congr_left
    intro c _
    simp only [Function.comp]
    exact showIf_showIf c _

/-- Witness of C8 on the sample cards: the location value `remoto` hides
the second card, whose title holds `Backend`; the query `Backend` then shows
it again and hides the first card, which `remoto` had shown. -/
theorem last_filter_wins_witness :
    (∀ c ∈ sampleCards, c.modalidad ≠ none ∧ c.h3 ≠ []) ∧
    (onLocationChange (js "remoto") sampleCards).cards.map Card.isHidden =
      [false, true, true] ∧
    (onSearchKeyup (js "Backend") (onLocationChange (js "remoto") sampleCards).cards).cards.map
        Card.isHidden = [true, false, true] ∧
    List.Forall₂
      (fun c c' => ∃ title more, c.h3 = title :: more ∧
        (c'.isHidden = true ↔ ¬ IsSubstring (js "Backend") title))
      sampleCards
      (onSearchKeyup (js "Backend") (onLocationChange (js "remoto") sampleCards).cards).cards ∧
    (onSearchKeyup (js "Backend") (onLocationChange (js "remoto") sampleCards).cards).cards.map
        Card.isHidden =
      (onSearchKeyup (js "Backend") sampleCards).cards.map Card.isHidden :=
  ⟨by decide, by decide, by decide,
   (last_filter_wins (js "remoto") (js "Backend") sampleCards (by decide)).2.1,
   (last_filter_wins (js "remoto") (js "Backend") sampleCards (by decide)).2.2.1⟩

/-- C9. Failure on a malformed card is not atomic: each handler raises if
and only if some card lacks the datum it reads; and when the first such card
is `bad`, with `pre` before it and `post` after it, the handler leaves the
cards of `pre` updated to the new predicate and leaves `bad` and `post` as
they were. -/
theorem failure_not_atomic (v q : JSString) (cards : List Card) :
    ((onLocationChange v cards).raised = true ↔ ∃ c ∈ cards, c.modalidad = none) ∧
    ((onSearchKeyup q cards).raised = true ↔ ∃ c ∈ cards, c.h3 = []) ∧
    (∀ pre bad post, cards = pre ++ bad :: post →
      (∀ c ∈ pre, c.modalidad ≠ none) → bad.modalidad = none →
      ∃ pre', (onLocationChange v cards).cards = pre' ++ bad :: post ∧
        List.Forall₂
          (fun c c' => c'.modalidad = c.modalidad ∧ c'.h3 = c.h3 ∧
            ∃ m, c.modalidad = some m ∧ (c'.isHidden = true ↔ ¬ IsSubstring v m))
          pre pre') ∧
    (∀ pre bad post, cards = pre ++ bad :: post →
      (∀ c ∈ pre, c.h3 ≠ []) → bad.h3 = [] →
      ∃ pre', (onSearchKeyup q cards).cards = pre' ++ bad :: post ∧
        List.Forall₂
          (fun c c' => c'.modalidad = c.modalidad ∧ c'.h3 = c.h3 ∧
            ∃ title more, c.h3 = title :: more ∧
              (c'.isHidden = true ↔ ¬ IsSubstring q title))
          pre pre') := by
  refine ⟨?_, ?_, ?_, ?_⟩
  · unfold onLocationChange
    rw [forEach_raised_iff]
    simp only [locationCallback_none_iff]
  · unfold onSearchKeyup
    rw [forEach_raised_iff]
    simp only [searchCallback_none_iff]
  · rintro pre bad post rfl hpre hbad
    refine ⟨pre.map (fun c => c.showIf (includes (c.modalidad.getD []) v)), ?_, ?_⟩
    · unfold onLocationChange
      rw [forEach_stops _ (fun c => c.showIf (includes (c.modalidad.getD []) v)) pre bad post
        (fun c hc => locationCallback_eq v c (hasModalidad_of_ne c (hpre c hc)))
        ((locationCallback_none_iff v bad).mpr hbad)]
    · rw [List.forall₂_map_right_iff, List.forall₂_same]
      intro c hc
      refine ⟨rfl, rfl, ?_⟩
      cases hm : c.modalidad with
      | none => exact absurd hm (hpre c hc)
      | some m =>
        refine ⟨m, rfl, ?_⟩
        rw [isHidden_showIf, ← includes_iff]
        simp
  · rintro pre bad post rfl hpre hbad
    refine ⟨pre.map (fun c => c.showIf (includes (c.h3.headD []) q)), ?_, ?_⟩
    · unfold onSearchKeyup
      rw [forEach_stops _ (fun c => c.showIf (includes (c.h3.headD []) q)) pre bad post
        (fun c hc => searchCallback_eq q c (hasTitle_of_ne c (hpre c hc)))
        ((searchCallback_none_iff q bad).mpr hbad)]
    · rw [List.forall₂_map_right_iff, List.forall₂_same]
      intro c hc
      refine ⟨rfl, rfl, ?_⟩
      cases hm : c.h3 with
      | nil => exact absurd hm (hpre c hc)
      | cons t more =>
        refine ⟨t, more, rfl, ?_⟩
        rw [isHidden_showIf, ← includes_iff]
        simp

/-- Witness of C9: on the mixed cards the location handler raises at the
bare card, after updating the two cards before it. -/
theorem failure_not_atomic_witness :
    (onLocationChange (js "remoto") mixedCards).raised = true ∧
    ∃ pre', (onLocationChange (js "remoto") mixedCards).cards =
        pre' ++ bareCard :: sampleCards.drop 2 ∧
      List.Forall₂
        (fun c c' => c'.modalidad = c.modalidad ∧ c'.h3 = c.h3 ∧
          ∃ m, c.modalidad = some m ∧ (c'.isHidden = true ↔ ¬ IsSubstring (js "remoto") m))
        (sampleCards.take 2) pre' :=
  ⟨(failure_not_atomic (js "remoto") [] mixedCards).1.mpr ⟨bareCard, by decide, rfl⟩,
   (failure_not_atomic (js "remoto") [] mixedCards).2.2.1 (sampleCards.take 2) bareCard
     (sampleCards.drop 2) rfl (by decide) rfl⟩

/-! ## The avatar element -/

theorem orDefault_of_ne_nil (v fallback : JSString) (h : v ≠ []) :
    orDefault (some v) fallback = v := by
  cases v with
  | nil => exact absurd rfl h
  | cons c rest => rfl

theorem orDefault_of_absent (value : Option JSString) (fallback : JSString)
    (h : value = none ∨ value = some []) : orDefault value fallback = fallback := by
  rcases h with h | h <;> simp [h, orDefault]

theorem setAttribute_shadowHTML (el : AvatarElement) (name value : JSString) :
    (setAttribute el name value).shadowHTML = el.shadowHTML := by
  unfold setAttribute
  split <;> rfl

theorem runOps_setAttributes_shadowHTML (changes : List (JSString × JSString))
    (el : AvatarElement) :
    (runOps el (changes.map (fun c => Op.setAttribute c.1 c.2))).shadowHTML = el.shadowHTML := by
  induction changes generalizing el with
  | nil => rfl
  | cons c rest ih =>
    simp only [runOps, List.map_cons, List.foldl_cons] at ih ⊢
    rw [ih]
    exact setAttribute_shadowHTML el c.1 c.2

/-- C5. Attribute defaults: `render` writes the markup for the resolved
service, username and size, and each of the three is the attribute value when
the attribute is present and not empty, and its default (`github`,
`juan-pablo-lopez`, `32`) when the attribute is absent or empty; the size `0`
is kept. -/
theorem attribute_defaults (el : AvatarElement) :
    (render el).shadowHTML =
      avatarMarkup (resolvedService el) (resolvedUsername el) (resolvedSize el) ∧
    (∀ v, getAttribute el (js "service") = some v → v ≠ [] → resolvedService el = v) ∧
    (getAttribute el (js "service") = none ∨ getAttribute el (js "service") = some [] →
      resolvedService el = js "github") ∧
    (∀ v, getAttribute el (js "username") = some v → v ≠ [] → resolvedUsername el = v) ∧
    (getAttribute el (js "username") = none ∨ getAttribute el (js "username") = some [] →
      resolvedUsername el = js "juan-pablo-lopez") ∧
    (∀ v, getAttribute el (js "size") = some v → v ≠ [] → resolvedSize el = v) ∧
    (getAttribute el (js "size") = none ∨ getAttribute el (js "size") = some [] →
      resolvedSize el = js "32") ∧
    (getAttribute el (js "size") = some (js "0") → resolvedSize el = js "0") := by
  refine ⟨rfl, ?_, ?_, ?_, ?_, ?_, ?_, ?_⟩
  · intro v hv hne
    rw [resolvedService, hv, orDefault_of_ne_nil v _ hne]
  · intro h
    exact orDefault_of_absent _ _ h
  · intro v hv hne
    rw [resolvedUsername, hv, orDefault_of_ne_nil v _ hne]
  · intro h
    exact orDefault_of_absent _ _ h
  · intro v hv hne
    rw [resolvedSize, hv, orDefault_of_ne_nil v _ hne]
  · intro h
    exact orDefault_of_absent _ _ h
  · intro hv
    rw [resolvedSize, hv, orDefault_of_ne_nil _ _ (by decide)]

/-- Witness of C5: a present service is kept, an empty username falls back
to `juan-pablo-lopez`, and the size `0` is kept. -/
theorem attribute_defaults_witness :
    resolvedService sampleAvatar = js "gitlab" ∧
    resolvedUsername sampleAvatar = js "juan-pablo-lopez" ∧
    resolvedSize sampleAvatar = js "0" :=
  ⟨(attribute_defaults sampleAvatar).2.1 (js "gitlab") (by decide) (by decide),
   (attribute_defaults sampleAvatar).2.2.2.2.1 (Or.inr (by decide)),
   (attribute_defaults sampleAvatar).2.2.2.2.2.2.2 (by decide)⟩

set_option maxRecDepth 20000 in
/-- C7, against the claim: after attachment, setting `size` to `64` leaves
the shadow markup different from the markup of the new attribute values. -/
theorem setAttribute_does_not_rerender :
    resolvedSize (runOps (AvatarElement.new [])
      [Op.attach, Op.setAttribute (js "size") (js "64")]) = js "64" ∧
    (runOps (AvatarElement.new [])
      [Op.attach, Op.setAttribute (js "size") (js "64")]).shadowHTML =
      avatarMarkup (js "github") (js "juan-pablo-lopez") (js "32") ∧
    (runOps (AvatarElement.new [])
      [Op.attach, Op.setAttribute (js "size") (js "64")]).shadowHTML ≠
      (render (runOps (AvatarElement.new [])
        [Op.attach, Op.setAttribute (js "size") (js "64")])).shadowHTML := by
  decide

/-- C7, as amended: attachment writes the markup rendered from the
attributes of that moment and leaves the attributes alone; whatever
attributes are set afterwards, the shadow markup stays that markup. -/
theorem attach_renders_and_markup_stays (el : AvatarElement)
    (changes : List (JSString × JSString)) :
    (runOps el [Op.attach]).shadowHTML =
      avatarMarkup (resolvedService el) (resolvedUsername el) (resolvedSize el) ∧
    (runOps el [Op.attach]).attributes = el.attributes ∧
    (runOps el (Op.attach :: changes.map (fun c => Op.setAttribute c.1 c.2))).shadowHTML =
      avatarMarkup (resolvedService el) (resolvedUsername el) (resolvedSize el) := by
  refine ⟨rfl, rfl, ?_⟩
  have h := runOps_setAttributes_shadowHTML changes (connectedCallback el)
  simpa [runOps, Op.apply] using h

/-! ## The tags of the rendered markup -/

theorem plain_iff (s : JSString) :
    plain s = true ↔ ∀ c ∈ s, c ≠ 0 ∧ c ≠ 13 ∧ c ≠ 34 ∧ c ≠ 38 := by
  simp [plain, and_assoc]

theorem plain_append (s t : JSString) : plain (s ++ t) = (plain s && plain t) := by
  simp [plain]

theorem noCR_append (s t : JSString) : noCR (s ++ t) = (noCR s && noCR t) := by
  simp [noCR]

theorem noCR_of_plain (s : JSString) (h : plain s = true) : noCR s = true := by
  rw [plain_iff] at h
  simp only [noCR, List.all_eq_true, bne_iff_ne]
  intro c hc
  exact (h c hc).2.1

theorem normalizeFrom_noCR (s : JSString) (h : noCR s = true) :
    normalizeFrom false s = s := by
  induction s with
  | nil => rfl
  | cons c rest ih =>
    simp only [noCR, List.all_cons, Bool.and_eq_true, bne_iff_ne] at h
    simp [normalizeFrom, h.1, ih (by simpa [noCR] using h.2)]

theorem fold_attrValueDQ (s : JSString) (h : plain s = true) (tag : Tag) (n v : JSString)
    (emitted : List Tag) :
    s.foldl step { state := TState.attrValueDQ, tag := tag, attr := some (n, v), emitted := emitted } =
      { state := TState.attrValueDQ, tag := tag, attr := some (n, v ++ s), emitted := emitted } := by
  induction s generalizing v with
  | nil => simp
  | cons c rest ih =>
    have hc := (plain_iff _).mp h c (List.mem_cons_self _ _)
    have hr : plain rest = true := by
      rw [plain_iff] at h ⊢
      intro x hx
      exact h x (List.mem_cons_of_mem _ hx)
    simp [step, hc.1, hc.2.2.1, hc.2.2.2, Tokenizer.appendValue, valueChar, ih hr]

theorem fold_tplSrc :
    tplSrc.foldl step Tokenizer.init =
      { state := TState.attrValueDQ
        tag := { isEnd := false, name := js "img", attrs := [], selfClosing := false }
        attr := some (js "src", []), emitted := [] } := by
  decide

theorem fold_tplWidth (url : JSString) :
    tplWidth.foldl step
      { state := TState.attrValueDQ
        tag := { isEnd := false, name := js "img", attrs := [], selfClosing := false }
        attr := some (js "src", url), emitted := [] } =
      { state := TState.attrValueDQ
        tag := { isEnd := false, name := js "img"
                 attrs := [(js "src", url), (js "alt", js "Avatar")], selfClosing := false }
        attr := some (js "width", []), emitted := [] } := by
  simp [tplWidth, js, utf16, step, stepData, stepAfterAttrName, stepBeforeAttrName,
    stepAttrValueUQ, Tokenizer.emit,
    Tokenizer.finishAttr, Tokenizer.startAttr, Tokenizer.appendName, Tokenizer.appendValue,
    Tokenizer.newTag, isWhitespace, nameChar, valueChar, isUpper, isAlpha]

theorem fold_tplHeight (url size : JSString) :
    tplHeight.foldl step
      { state := TState.attrValueDQ
        tag := { isEnd := false, name := js "img"
                 attrs := [(js "src", url), (js "alt", js "Avatar")], selfClosing := false }
        attr := some (js "width", size), emitted := [] } =
      { state := TState.attrValueDQ
        tag := { isEnd := false, name := js "img"
                 attrs := [(js "src", url), (js "alt", js "Avatar"), (js "width", size)]
                 selfClosing := false }
        attr := some (js "height", []), emitted := [] } := by
  simp [tplHeight, js, utf16, step, stepData, stepAfterAttrName, stepBeforeAttrName,
    stepAttrValueUQ, Tokenizer.emit,
    Tokenizer.finishAttr, Tokenizer.startAttr, Tokenizer.appendName, Tokenizer.appendValue,
    Tokenizer.newTag, isWhitespace, nameChar, valueChar, isUpper, isAlpha]

theorem fold_tplTail (url size : JSString) :
    tplTail.foldl step
      { state := TState.attrValueDQ
        tag := { isEnd := false, name := js "img"
                 attrs := [(js "src", url), (js "alt", js "Avatar"), (js "width", size)]
                 selfClosing := false }
        attr := some (js "height", size), emitted := [] } =
      { state := TState.data
        tag := { isEnd := false, name := js "img"
                 attrs := [(js "src", url), (js "alt", js "Avatar"), (js "width", size),
                   (js "height", size),
                   (js "style", js "border-radius: 50%; border: 2px solid #000;")]
                 selfClosing := true }
        attr := none
        emitted := [{ isEnd := false, name := js "img"
                      attrs := [(js "src", url), (js "alt", js "Avatar"), (js "width", size),
                        (js "height", size),
                        (js "style", js "border-radius: 50%; border: 2px solid #000;")]
                      selfClosing := true }] } := by
  simp [tplTail, js, utf16, step, stepData, stepAfterAttrName, stepBeforeAttrName,
    stepAttrValueUQ, Tokenizer.emit, rawTextNames,
    Tokenizer.finishAttr, Tokenizer.startAttr, Tokenizer.appendName, Tokenizer.appendValue,
    Tokenizer.newTag, isWhitespace, nameChar, valueChar, isUpper, isAlpha]

theorem plain_createAvatarUrl (service username : JSString)
    (hs : plain service = true) (hu : plain username = true) :
    plain (createAvatarUrl service username) = true := by
  have h1 : plain (js "https://unavatar.io/") = true := by decide
  have h2 : plain (js "/") = true := by decide
  simp [createAvatarUrl, plain_append, hs, hu, h1, h2]

theorem tags_avatarMarkup (service username size : JSString)
    (hs : plain service = true) (hu : plain username = true) (hz : plain size = true) :
    tags (avatarMarkup service username size) = some [avatarTag service username size] := by
  have hurl := plain_createAvatarUrl service username hs hu
  have h1 : noCR tplSrc = true := by decide
  have h2 : noCR tplWidth = true := by decide
  have h3 : noCR tplHeight = true := by decide
  have h4 : noCR tplTail = true := by decide
  have hm : noCR (avatarMarkup service username size) = true := by
    simp [avatarMarkup, noCR_append, noCR_of_plain _ hurl, noCR_of_plain _ hz, h1, h2, h3, h4]
  unfold tags normalizeNewlines
  rw [normalizeFrom_noCR _ hm]
  simp only [avatarMarkup, List.foldl_append, fold_tplSrc, fold_attrValueDQ _ hurl,
    fold_attrValueDQ _ hz, List.nil_append, fold_tplWidth, fold_tplHeight, fold_tplTail]
  simp [avatarTag]



theorem tags_render (el : AvatarElement)
    (hs : plain (resolvedService el) = true) (hu : plain (resolvedUsername el) = true)
    (hz : plain (resolvedSize el) = true) :
    tags (render el).shadowHTML =
      some [avatarTag (resolvedService el) (resolvedUsername el) (resolvedSize el)] :=
  tags_avatarMarkup _ _ _ hs hu hz

set_option maxRecDepth 20000 in
/-- C4, against the claim: for the service `github` and the username
`midudev` the `src` of the image is `https://unavatar.io/github/midudev`, not
`https://github/midudev`; a double quote in the username ends the `src` value
early; and a size that opens a new tag gives three images, two of them
with the `src` `z`. -/
theorem src_is_not_spec_url :
    resolvedService midudevAvatar = js "github" ∧
    resolvedUsername midudevAvatar = js "midudev" ∧
    tagAttrs (render midudevAvatar).shadowHTML (js "src") =
      some [(js "img", some (js "https://unavatar.io/github/midudev"))] ∧
    js "https://unavatar.io/github/midudev" ≠ specAvatarUrl (js "github") (js "midudev") ∧
    tagAttrs (render quotedUsernameAvatar).shadowHTML (js "src") =
      some [(js "img", some (js "https://unavatar.io/github/a"))] ∧
    tagAttrs (render secondTagSizeAvatar).shadowHTML (js "src") =
      some [(js "img", some (js "https://unavatar.io/github/juan-pablo-lopez")),
        (js "img", some (js "z")), (js "img", some (js "z"))] := by
  decide

/-- C4, as amended: when the resolved service, username and size hold no
NUL, CR, double quote or ampersand, the rendered markup has one tag, an
`img`, and its `src` is `https://unavatar.io/`, the service, `/` and the
username. -/
theorem src_is_unavatar_url (el : AvatarElement)
    (hs : plain (resolvedService el) = true) (hu : plain (resolvedUsername el) = true)
    (hz : plain (resolvedSize el) = true) :
    tagAttrs (render el).shadowHTML (js "src") =
      some [(js "img",
        some (js "https://unavatar.io/" ++ resolvedService el ++ js "/" ++ resolvedUsername el))] := by
  rw [tagAttrs, tags_render el hs hu hz]
  rfl

/-- Witness of the amended C4 on the sample element. -/
theorem src_is_unavatar_url_witness :
    plain (resolvedService sampleAvatar) = true ∧
    plain (resolvedUsername sampleAvatar) = true ∧
    plain (resolvedSize sampleAvatar) = true ∧
    tagAttrs (render sampleAvatar).shadowHTML (js "src") =
      some [(js "img",
        some (js "https://unavatar.io/" ++ resolvedService sampleAvatar ++ js "/" ++
          resolvedUsername sampleAvatar))] :=
  ⟨by decide, by decide, by decide,
   src_is_unavatar_url sampleAvatar (by decide) (by decide) (by decide)⟩

set_option maxRecDepth 20000 in
/-- C6, against the claim: a size holding a double quote gives an image
whose width and height differ from the size and from each other; a username
holding one gives a width that differs from the height; and a size that opens
a new tag gives three `img` tags, two of them without a width. -/
theorem injected_quote_breaks_square :
    resolvedSize injectedHeightAvatar = js "1\" height=\"2" ∧
    tagAttrs (render injectedHeightAvatar).shadowHTML (js "width") =
      some [(js "img", some (js "1"))] ∧
    tagAttrs (render injectedHeightAvatar).shadowHTML (js "height") =
      some [(js "img", some (js "2"))] ∧
    tagAttrs (render injectedWidthAvatar).shadowHTML (js "width") =
      some [(js "img", some (js "99"))] ∧
    tagAttrs (render injectedWidthAvatar).shadowHTML (js "height") =
      some [(js "img", some (js "32"))] ∧
    tagAttrs (render secondTagSizeAvatar).shadowHTML (js "width") =
      some [(js "img", some (js "1")), (js "img", none), (js "img", none)] := by
  decide

/-- C6, as amended: when the resolved service, username and size hold no
NUL, CR, double quote or ampersand, the rendered markup has exactly one tag,
an `img` start tag, and its `width` and its `height` are both the resolved
size. -/
theorem render_one_square_img (el : AvatarElement)
    (hs : plain (resolvedService el) = true) (hu : plain (resolvedUsername el) = true)
    (hz : plain (resolvedSize el) = true) :
    ∃ tag, tags (render el).shadowHTML = some [tag] ∧
      tag.isEnd = false ∧ tag.name = js "img" ∧
      tag.attr (js "width") = some (resolvedSize el) ∧
      tag.attr (js "height") = some (resolvedSize el) := by
  refine ⟨_, tags_render el hs hu hz, rfl, rfl, ?_, ?_⟩
  · rfl
  · rfl

/-- Witness of the amended C6 on the sample element, whose size is `0`. -/
theorem render_one_square_img_witness :
    plain (resolvedService sampleAvatar) = true ∧
    plain (resolvedUsername sampleAvatar) = true ∧
    plain (resolvedSize sampleAvatar) = true ∧
    ∃ tag, tags (render sampleAvatar).shadowHTML = some [tag] ∧
      tag.isEnd = false ∧ tag.name = js "img" ∧
      tag.attr (js "width") = some (resolvedSize sampleAvatar) ∧
      tag.attr (js "height") = some (resolvedSize sampleAvatar) :=
  ⟨by decide, by decide, by decide,
   render_one_square_img sampleAvatar (by decide) (by decide) (by decide)⟩

set_option maxRecDepth 20000 in
/-- C10, against the claim: the `src` of the rendered `img` is not always
the string that `createAvatarUrl` returns. A double quote in the username or
in the service ends the `src` early, a carriage return in the username
arrives as a line feed, and a NUL arrives as U+FFFD. -/
theorem src_is_not_always_verbatim :
    resolvedUsername quotedUsernameAvatar = js "a\"b" ∧
    tagAttrs (render quotedUsernameAvatar).shadowHTML (js "src") =
      some [(js "img", some (js "https://unavatar.io/github/a"))] ∧
    js "https://unavatar.io/github/a" ≠ createAvatarUrl (js "github") (js "a\"b") ∧
    tagAttrs (render quotedServiceAvatar).shadowHTML (js "src") =
      some [(js "img", some (js "https://unavatar.io/a"))] ∧
    js "https://unavatar.io/a" ≠ createAvatarUrl (js "a\"b") (js "juan-pablo-lopez") ∧
    tagAttrs (render crUsernameAvatar).shadowHTML (js "src") =
      some [(js "img", some (js "https://unavatar.io/github/a" ++ [10, 98]))] ∧
    createAvatarUrl (js "github") [97, 13, 98] = js "https://unavatar.io/github/a" ++ [13, 98] ∧
    tagAttrs (render nulUsernameAvatar).shadowHTML (js "src") =
      some [(js "img", some (js "https://unavatar.io/github/a" ++ [65533]))] ∧
    createAvatarUrl (js "github") [97, 0] = js "https://unavatar.io/github/a" ++ [0] := by
  decide

/-- C10, as amended: `createAvatarUrl` is, for every pair of strings, the
plain concatenation of `https://unavatar.io/`, the service, `/` and the
username; `render` writes that string unchanged into the markup, between
`src="` and the `"` that follows; when the resolved service, username and
size hold no NUL, CR, double quote or ampersand, the markup has one tag, an
`img`, whose `src` is that string; the function is injective in the username
for every fixed service, and it is not injective on pairs. -/
theorem createAvatarUrl_verbatim_when_plain (el : AvatarElement)
    (hs : plain (resolvedService el) = true) (hu : plain (resolvedUsername el) = true)
    (hz : plain (resolvedSize el) = true) :
    (∀ service username : JSString,
      createAvatarUrl service username =
        js "https://unavatar.io/" ++ service ++ js "/" ++ username) ∧
    (∀ other : AvatarElement, ∃ pre post,
      tplSrc = pre ++ js "src=\"" ∧ tplWidth = js "\"" ++ post ∧
      (render other).shadowHTML =
        pre ++ js "src=\"" ++
          createAvatarUrl (resolvedService other) (resolvedUsername other) ++
          js "\"" ++ post ++ resolvedSize other ++ tplHeight ++ resolvedSize other ++ tplTail) ∧
    tagAttrs (render el).shadowHTML (js "src") =
      some [(js "img", some (createAvatarUrl (resolvedService el) (resolvedUsername el)))] ∧
    (∀ service : JSString, Function.Injective (createAvatarUrl service)) ∧
    createAvatarUrl (js "a/b") (js "c") = createAvatarUrl (js "a") (js "b/c") ∧
    (js "a/b", js "c") ≠ (js "a", js "b/c") ∧
    ¬ Function.Injective (fun p : JSString × JSString => createAvatarUrl p.1 p.2) := by
  refine ⟨fun _ _ => rfl, ?_, ?_, ?_, by decide, by decide, ?_⟩
  · intro other
    refine ⟨tplSrc.take 35, tplWidth.drop 1, by decide, by decide, ?_⟩
    have h1 : tplSrc = tplSrc.take 35 ++ js "src=\"" := by decide
    have h2 : tplWidth = js "\"" ++ tplWidth.drop 1 := by decide
    show avatarMarkup _ _ _ = _
    unfold avatarMarkup
    conv_lhs => rw [h1, h2]
    simp only [List.append_assoc]
  · rw [tagAttrs, tags_render el hs hu hz]
    rfl
  · intro service u u' h
    unfold createAvatarUrl at h
    exact List.append_cancel_left h
  · intro hinj
    have h : createAvatarUrl (js "a/b") (js "c") = createAvatarUrl (js "a") (js "b/c") := by
      decide
    have hp : (js "a/b", js "c") = (js "a", js "b/c") :=
      @hinj (js "a/b", js "c") (js "a", js "b/c") h
    exact absurd hp (by decide)

/-- Witness of the amended C10 on the sample element, whose service is
`gitlab` and whose username falls back to the default: its `img` has the
URL of `createAvatarUrl` as `src`, and two different usernames of one service
give two different URLs. -/
theorem createAvatarUrl_verbatim_when_plain_witness :
    plain (resolvedService sampleAvatar) = true ∧
    plain (resolvedUsername sampleAvatar) = true ∧
    plain (resolvedSize sampleAvatar) = true ∧
    tagAttrs (render sampleAvatar).shadowHTML (js "src") =
      some [(js "img", some (js "https://unavatar.io/gitlab/juan-pablo-lopez"))] ∧
    createAvatarUrl (js "github") (js "midudev") ≠
      createAvatarUrl (js "github") (js "midulive") :=
  ⟨by decide, by decide, by decide,
   (createAvatarUrl_verbatim_when_plain sampleAvatar (by decide) (by decide)
     (by decide)).2.2.1,
   ((createAvatarUrl_verbatim_when_plain sampleAvatar (by decide) (by decide)
     (by decide)).2.2.2.1 (js "github")).ne (by decide)⟩

end DevJobs
